import Mathlib

/-!
Verification of the exposure-weight core of enblend-enfuse
(`src/exposure_weight.cc`).

The file embeds the factory `make_weight_function`, its dynamic-loading
helper `make_dynamic_weight_function`, and the diagnostics
`dump_weight_function` / `check_weight_function` as Lean definitions, and
proves the specification claims about them.

Modelling decisions, mirroring the source:
* Numeric parameters (`double` in the source) are kept abstract in the
  factory layer: the factory only passes them through, so it is generic in
  a type `α`.  The diagnostics need an ordered field; claims about the
  built-in curve shapes use `ℝ`.
* Side effects (deleting the process-wide `ExposureWeightFunction`,
  constructing objects, printing diagnostics to `std::cerr`, calling
  `exit(1)`) are recorded in an event trace, in the order the source
  performs them.  `exit(1)` never returns, so a trace ending in
  `exitProcess 1` is paired with no returned curve.
* The dynamically loaded module is external user code behind the
  `DynamicLoader` ABI; its behaviour is a parameter (`ModuleEnv`), namely
  the outcome of `function->initialize(y, w, args)` for the curve resolved
  under a symbol in a library.
* The source is compiled either with or without `HAVE_DYNAMICLOADER_IMPL`;
  the two build variants of `make_weight_function` are two definitions.
* The `command << ": "` prefix the source prints before every diagnostic
  line comes from an `extern` global defined outside this translation
  unit; the modelled messages carry everything after that prefix.
-/

/-- The five built-in exposure weight curves of `exposure_weight.h`,
constructed in `make_weight_function` (`Gaussian`, `Lorentzian`,
`HalfSinusodial`, `FullSinusodial`, `Bisquare`). -/
inductive BuiltinKind : Type
  | gaussian
  | lorentzian
  | halfSinusodial
  | fullSinusodial
  | bisquare
deriving DecidableEq

/-- A curve object as returned by the factory: either a built-in
parameterized with `(y_optimum, width)`, or a `DynamicExposureWeight`
wrapping the symbol `symbol` resolved in the shared object `library`. -/
inductive Curve (α : Type) : Type
  | builtin (kind : BuiltinKind) (y_optimum width : α)
  | dynamic (library symbol : String)

/-- `ExposureWeight::error` — the exception a loaded curve's `initialize`
may raise, carrying a descriptive message (`what()`). -/
structure CurveError : Type where
  what : String

/-- Observable actions of the factory, in source order:
`destroy prev` is `delete ExposureWeightFunction` (the process-wide slot
holding `prev`); `constructBuiltin` is `new Gaussian(...)` etc.;
`constructDynamic` is `new DynamicExposureWeight(name, symbol_name)`
(loading the module and resolving the symbol); `initializeDynamic` is
`weight_object->initialize(y_optimum, width, user_arguments)` (which also
prints its banner line); `report` is a diagnostic line on `std::cerr`;
`exitProcess c` is `exit(c)`. -/
inductive Event (α : Type) : Type
  | destroy (prev : Option (Curve α))
  | constructBuiltin (kind : BuiltinKind) (y_optimum width : α)
  | constructDynamic (library symbol : String)
  | initializeDynamic (y_optimum width : α) (argument_list : List String)
  | report (message : String)
  | exitProcess (code : Nat)

/-- Behaviour of the external module behind the `DynamicLoader` ABI:
the outcome of `function->initialize(y_optimum, width, argument_list)`
for the curve resolved under `symbol` inside `library` — either success
or a raised `ExposureWeight::error`. -/
structure ModuleEnv (α : Type) : Type where
  init_outcome : (library : String) → (symbol : String) →
    (y_optimum : α) → (width : α) → (argument_list : List String) →
    Except CurveError Unit

/-- Modelled from the spec: `enblend::to_lower` (declared in a header that
is not under `src/`) normalizes the name to lower case; per §4.2 "Name
resolution is case-insensitive". -/
def to_lower (s : String) : String :=
  ⟨s.data.map Char.toLower⟩

/-- `make_dynamic_weight_function` (lines 76–110): with an empty argument
list, report the unknown built-in name and `exit(1)`; otherwise take the
front of `arguments` as the symbol name, copy the remaining elements (in
order) into `user_arguments`, construct a `DynamicExposureWeight` and call
`initialize(y_optimum, width, user_arguments)` on it; a raised
`ExposureWeight::error` is caught, reported with symbol, library and
message, and the process exits with status 1. -/
def make_dynamic_weight_function {α : Type} (env : ModuleEnv α)
    (name : String) (arguments : List String) (y_optimum width : α) :
    List (Event α) × Option (Curve α) :=
  match arguments with
  | [] =>
      ([Event.report ("unknown built-in exposure weight function \"" ++ name ++ "\""),
        Event.exitProcess 1],
       none)
  | symbol_name :: user_arguments =>
      match env.init_outcome name symbol_name y_optimum width user_arguments with
      | Except.ok _ =>
          ([Event.constructDynamic name symbol_name,
            Event.initializeDynamic y_optimum width user_arguments],
           some (Curve.dynamic name symbol_name))
      | Except.error exception =>
          ([Event.constructDynamic name symbol_name,
            Event.initializeDynamic y_optimum width user_arguments,
            Event.report ("user-defined weight function \"" ++ symbol_name ++
              "\" defined in shared object \"" ++ name ++
              "\" raised exception: " ++ exception.what),
            Event.exitProcess 1],
           none)

/-- `make_weight_function` (lines 114–155) as compiled with
`HAVE_DYNAMICLOADER_IMPL`: first `delete ExposureWeightFunction` (the
slot holds `prev`), then lower-case the name and match it against the
alias table, constructing the corresponding built-in; an unmatched name
falls through to `make_dynamic_weight_function`. -/
def make_weight_function_dyn {α : Type} (env : ModuleEnv α)
    (prev : Option (Curve α))
    (name : String) (arguments : List String) (y_optimum width : α) :
    List (Event α) × Option (Curve α) :=
  let possible_built_in := to_lower name
  let res :=
    if possible_built_in = "gauss" ∨ possible_built_in = "gaussian" then
      ([Event.constructBuiltin BuiltinKind.gaussian y_optimum width],
       some (Curve.builtin BuiltinKind.gaussian y_optimum width))
    else if possible_built_in = "lorentz" ∨ possible_built_in = "lorentzian" then
      ([Event.constructBuiltin BuiltinKind.lorentzian y_optimum width],
       some (Curve.builtin BuiltinKind.lorentzian y_optimum width))
    else if possible_built_in = "halfsine" ∨ possible_built_in = "half-sine" then
      ([Event.constructBuiltin BuiltinKind.halfSinusodial y_optimum width],
       some (Curve.builtin BuiltinKind.halfSinusodial y_optimum width))
    else if possible_built_in = "fullsine" ∨ possible_built_in = "full-sine" then
      ([Event.constructBuiltin BuiltinKind.fullSinusodial y_optimum width],
       some (Curve.builtin BuiltinKind.fullSinusodial y_optimum width))
    else if possible_built_in = "bisquare" ∨ possible_built_in = "bi-square" then
      ([Event.constructBuiltin BuiltinKind.bisquare y_optimum width],
       some (Curve.builtin BuiltinKind.bisquare y_optimum width))
    else
      make_dynamic_weight_function env name arguments y_optimum width
  (Event.destroy prev :: res.1, res.2)

/-- `make_weight_function` (lines 114–155) as compiled without
`HAVE_DYNAMICLOADER_IMPL`: identical on the built-in branches, but an
unmatched name is reported (unknown name, and two note lines that this
binary has no dynamic-loading support) and the process exits with
status 1. -/
def make_weight_function_nodyn {α : Type}
    (prev : Option (Curve α))
    (name : String) (arguments : List String) (y_optimum width : α) :
    List (Event α) × Option (Curve α) :=
  let possible_built_in := to_lower name
  let res :=
    if possible_built_in = "gauss" ∨ possible_built_in = "gaussian" then
      ([Event.constructBuiltin BuiltinKind.gaussian y_optimum width],
       some (Curve.builtin BuiltinKind.gaussian y_optimum width))
    else if possible_built_in = "lorentz" ∨ possible_built_in = "lorentzian" then
      ([Event.constructBuiltin BuiltinKind.lorentzian y_optimum width],
       some (Curve.builtin BuiltinKind.lorentzian y_optimum width))
    else if possible_built_in = "halfsine" ∨ possible_built_in = "half-sine" then
      ([Event.constructBuiltin BuiltinKind.halfSinusodial y_optimum width],
       some (Curve.builtin BuiltinKind.halfSinusodial y_optimum width))
    else if possible_built_in = "fullsine" ∨ possible_built_in = "full-sine" then
      ([Event.constructBuiltin BuiltinKind.fullSinusodial y_optimum width],
       some (Curve.builtin BuiltinKind.fullSinusodial y_optimum width))
    else if possible_built_in = "bisquare" ∨ possible_built_in = "bi-square" then
      ([Event.constructBuiltin BuiltinKind.bisquare y_optimum width],
       some (Curve.builtin BuiltinKind.bisquare y_optimum width))
    else
      ([Event.report ("unknown built-in exposure weight function \"" ++ name ++ "\""),
        Event.report "note: this binary has no support for dynamic loading of",
        Event.report "note: exposure weight functions",
        Event.exitProcess 1],
       none)
  (Event.destroy prev :: res.1, res.2)

/-- The alias table of §4.2 / §6: the spellings whose lower-cased match
selects each built-in in `make_weight_function`. -/
def aliases : BuiltinKind → List String
  | BuiltinKind.gaussian => ["gauss", "gaussian"]
  | BuiltinKind.lorentzian => ["lorentz", "lorentzian"]
  | BuiltinKind.halfSinusodial => ["halfsine", "half-sine"]
  | BuiltinKind.fullSinusodial => ["fullsine", "full-sine"]
  | BuiltinKind.bisquare => ["bisquare", "bi-square"]

/-- All built-in alias spellings, the union of `aliases` over the five
kinds; a name is unmatched exactly when its lower-cased form is not in
this list. -/
def builtin_aliases : List String :=
  ["gauss", "gaussian", "lorentz", "lorentzian", "halfsine", "half-sine",
   "fullsine", "full-sine", "bisquare", "bi-square"]

/-- The sampling grid of the diagnostics (lines 165 and 185):
`x = static_cast<double>(i) / static_cast<double>(n - 1)`. -/
def sample_point (α : Type) [DivisionRing α] (i n : ℕ) : α :=
  (i : α) / ((n - 1 : ℕ) : α)

/-- `dump_weight_function` (lines 158–170): for each `i` in `[0, n)` in
increasing order, print the triple
`(i, x, weight_function->weight(x))` with `x = i/(n-1)`; the returned
list holds the printed triples in output order. -/
def dump_weight_function {α : Type} [DivisionRing α]
    (weight_function : α → α) (n : ℕ) : List (ℕ × α × α) :=
  (List.range n).map (fun i =>
    (i, sample_point α i n, weight_function (sample_point α i n)))

/-- The fault counter of `check_weight_function` (lines 178–192): the
number of grid indices `i < n` whose sampled weight `w` satisfies
`w < 0.0 || w >= 1.0`. -/
def number_of_faults {α : Type} [LinearOrderedField α]
    (weight_function : α → α) (n : ℕ) : ℕ :=
  (List.range n).countP (fun i =>
    decide (weight_function (sample_point α i n) < 0 ∨
      weight_function (sample_point α i n) ≥ 1))

/-- `check_weight_function` (lines 173–195): sample the `n` grid points,
count the out-of-range results, and return
`number_of_faults == omp::atomic_t()`, i.e. whether the count is zero. -/
def check_weight_function {α : Type} [LinearOrderedField α]
    (weight_function : α → α) (n : ℕ) : Bool :=
  number_of_faults weight_function n == 0

/-- Dynamic-module environment whose loaded curve always initializes
successfully: used to instantiate theorems at concrete inputs. -/
def ok_env : ModuleEnv ℚ :=
  ⟨fun _ _ _ _ _ => Except.ok ()⟩

/-- Dynamic-module environment whose loaded curve raises
`ExposureWeight::error` with message "bad width" on initialization. -/
def failing_env : ModuleEnv ℚ :=
  ⟨fun _ _ _ _ _ => Except.error ⟨"bad width"⟩⟩

/-- A name whose lower-cased form is an alias of `kind` resolves to that
built-in, with the full trace `delete` then construct, on both build
variants; the argument list plays no role. -/
theorem make_weight_function_matched {α : Type} (env : ModuleEnv α)
    (prev : Option (Curve α)) (kind : BuiltinKind) (name : String)
    (arguments : List String) (y_optimum width : α)
    (h : to_lower name ∈ aliases kind) :
    make_weight_function_dyn env prev name arguments y_optimum width =
      ([Event.destroy prev, Event.constructBuiltin kind y_optimum width],
       some (Curve.builtin kind y_optimum width)) ∧
    make_weight_function_nodyn prev name arguments y_optimum width =
      ([Event.destroy prev, Event.constructBuiltin kind y_optimum width],
       some (Curve.builtin kind y_optimum width)) := by
  cases kind <;>
    simp only [aliases, List.mem_cons, List.not_mem_nil, or_false] at h <;>
    rcases h with h | h <;>
      simp [make_weight_function_dyn, make_weight_function_nodyn, h]

/-- A name whose lower-cased form matches no alias falls through to the
dynamic path (build with `HAVE_DYNAMICLOADER_IMPL`), after the delete. -/
theorem make_weight_function_dyn_unmatched {α : Type} (env : ModuleEnv α)
    (prev : Option (Curve α)) (name : String) (arguments : List String)
    (y_optimum width : α) (h : to_lower name ∉ builtin_aliases) :
    make_weight_function_dyn env prev name arguments y_optimum width =
      (Event.destroy prev ::
        (make_dynamic_weight_function env name arguments y_optimum width).1,
       (make_dynamic_weight_function env name arguments y_optimum width).2) := by
  simp only [builtin_aliases, List.mem_cons, List.not_mem_nil, or_false, not_or] at h
  obtain ⟨h1, h2, h3, h4, h5, h6, h7, h8, h9, h10⟩ := h
  simp [make_weight_function_dyn, h1, h2, h3, h4, h5, h6, h7, h8, h9, h10]

/-- A name whose lower-cased form matches no alias is fatal on the build
without dynamic-loading support: after the delete, the unknown name and
the two note lines are reported and the process exits with status 1. -/
theorem make_weight_function_nodyn_unmatched {α : Type}
    (prev : Option (Curve α)) (name : String) (arguments : List String)
    (y_optimum width : α) (h : to_lower name ∉ builtin_aliases) :
    make_weight_function_nodyn prev name arguments y_optimum width =
      ([Event.destroy prev,
        Event.report ("unknown built-in exposure weight function \"" ++ name ++ "\""),
        Event.report "note: this binary has no support for dynamic loading of",
        Event.report "note: exposure weight functions",
        Event.exitProcess 1],
       none) := by
  simp only [builtin_aliases, List.mem_cons, List.not_mem_nil, or_false, not_or] at h
  obtain ⟨h1, h2, h3, h4, h5, h6, h7, h8, h9, h10⟩ := h
  simp [make_weight_function_nodyn, h1, h2, h3, h4, h5, h6, h7, h8, h9, h10]

/-- C1: a name whose lower-cased form is one of the built-in aliases
resolves to the corresponding built-in constructed with
`(y_optimum, width)`, on both build variants, independently of the
argument list; in particular "GAUSS", "Gauss" and "gauss" all lower-case
to "gauss" and hence resolve to the same Gaussian variant. -/
theorem C1_builtin_alias_resolution {α : Type} (env : ModuleEnv α)
    (prev : Option (Curve α)) (kind : BuiltinKind) (name : String)
    (arguments : List String) (y_optimum width : α)
    (h : to_lower name ∈ aliases kind) :
    make_weight_function_dyn env prev name arguments y_optimum width =
      ([Event.destroy prev, Event.constructBuiltin kind y_optimum width],
       some (Curve.builtin kind y_optimum width)) ∧
    make_weight_function_nodyn prev name arguments y_optimum width =
      ([Event.destroy prev, Event.constructBuiltin kind y_optimum width],
       some (Curve.builtin kind y_optimum width)) :=
  make_weight_function_matched env prev kind name arguments y_optimum width h

/-- C1 witness: "GAUSS" (lower-cased "gauss") resolves to the Gaussian
built-in with the given parameters, with a nonempty argument list that is
ignored. -/
theorem C1_builtin_alias_resolution_witness :
    make_weight_function_dyn ok_env none "GAUSS" ["ignored"] (1/2 : ℚ) (1/4) =
      ([Event.destroy none, Event.constructBuiltin BuiltinKind.gaussian (1/2) (1/4)],
       some (Curve.builtin BuiltinKind.gaussian (1/2) (1/4))) ∧
    make_weight_function_nodyn none "GAUSS" ["ignored"] (1/2 : ℚ) (1/4) =
      ([Event.destroy none, Event.constructBuiltin BuiltinKind.gaussian (1/2) (1/4)],
       some (Curve.builtin BuiltinKind.gaussian (1/2) (1/4))) :=
  C1_builtin_alias_resolution ok_env none BuiltinKind.gaussian "GAUSS" ["ignored"]
    (1/2) (1/4) (by decide)

/-- C2: on every call and on both build variants, the very first action of
`make_weight_function` is `delete ExposureWeightFunction`, destroying the
previously active curve `prev` before any name resolution or
construction; hence a second call first destroys whatever the first call
installed, and no two active instances coexist. -/
theorem C2_destroy_previous_first {α : Type} (env : ModuleEnv α)
    (prev : Option (Curve α)) (name : String) (arguments : List String)
    (y_optimum width : α) :
    (make_weight_function_dyn env prev name arguments y_optimum width).1.head? =
      some (Event.destroy prev) ∧
    (make_weight_function_nodyn prev name arguments y_optimum width).1.head? =
      some (Event.destroy prev) :=
  ⟨rfl, rfl⟩

/-- C5: on the build with dynamic-loading support, an unmatched name with
an empty argument list is a fatal configuration error: after destroying
the previous curve, the factory reports the offending name and exits the
process with status 1, returning no curve. -/
theorem C5_dynamic_empty_arguments_fatal {α : Type} (env : ModuleEnv α)
    (prev : Option (Curve α)) (name : String) (y_optimum width : α)
    (h : to_lower name ∉ builtin_aliases) :
    make_weight_function_dyn env prev name [] y_optimum width =
      ([Event.destroy prev,
        Event.report ("unknown built-in exposure weight function \"" ++ name ++ "\""),
        Event.exitProcess 1],
       none) := by
  rw [make_weight_function_dyn_unmatched env prev name [] y_optimum width h]
  simp [make_dynamic_weight_function]

/-- C5 witness: the unmatched name "nosuch" with no arguments is fatal on
the dynamic-loading build. -/
theorem C5_dynamic_empty_arguments_fatal_witness :
    make_weight_function_dyn ok_env none "nosuch" [] (1/2 : ℚ) (1/4) =
      ([Event.destroy none,
        Event.report "unknown built-in exposure weight function \"nosuch\"",
        Event.exitProcess 1],
       none) :=
  C5_dynamic_empty_arguments_fatal ok_env none "nosuch" (1/2) (1/4) (by decide)

/-- C6: on the build without dynamic-loading support, an unmatched name is
fatal: after destroying the previous curve, the factory reports the
unknown name and two note lines saying the binary lacks dynamic-loading
support, and exits the process with status 1, returning no curve. -/
theorem C6_unknown_name_no_loader_fatal {α : Type}
    (prev : Option (Curve α)) (name : String) (arguments : List String)
    (y_optimum width : α) (h : to_lower name ∉ builtin_aliases) :
    make_weight_function_nodyn prev name arguments y_optimum width =
      ([Event.destroy prev,
        Event.report ("unknown built-in exposure weight function \"" ++ name ++ "\""),
        Event.report "note: this binary has no support for dynamic loading of",
        Event.report "note: exposure weight functions",
        Event.exitProcess 1],
       none) :=
  make_weight_function_nodyn_unmatched prev name arguments y_optimum width h

/-- C6 witness: the unmatched name "nosuch" is fatal on the build without
dynamic-loading support. -/
theorem C6_unknown_name_no_loader_fatal_witness :
    make_weight_function_nodyn none "nosuch" [] (1/2 : ℚ) (1/4) =
      ([Event.destroy none,
        Event.report "unknown built-in exposure weight function \"nosuch\"",
        Event.report "note: this binary has no support for dynamic loading of",
        Event.report "note: exposure weight functions",
        Event.exitProcess 1],
       none) :=
  C6_unknown_name_no_loader_fatal none "nosuch" [] (1/2) (1/4) (by decide)

/-- C7: when the dynamically loaded curve's initialize raises
`ExposureWeight::error`, the factory catches it, reports the symbol name,
the shared-object (module) name and the error's own message, and exits the
process with status 1, returning no curve — the error is never
swallowed. -/
theorem C7_dynamic_init_error_fatal {α : Type} (env : ModuleEnv α)
    (prev : Option (Curve α)) (name symbol_name : String)
    (user_arguments : List String) (y_optimum width : α)
    (exception : CurveError)
    (hname : to_lower name ∉ builtin_aliases)
    (herr : env.init_outcome name symbol_name y_optimum width user_arguments =
      Except.error exception) :
    make_weight_function_dyn env prev name (symbol_name :: user_arguments)
        y_optimum width =
      ([Event.destroy prev,
        Event.constructDynamic name symbol_name,
        Event.initializeDynamic y_optimum width user_arguments,
        Event.report ("user-defined weight function \"" ++ symbol_name ++
          "\" defined in shared object \"" ++ name ++
          "\" raised exception: " ++ exception.what),
        Event.exitProcess 1],
       none) := by
  rw [make_weight_function_dyn_unmatched env prev name (symbol_name :: user_arguments)
    y_optimum width hname]
  simp [make_dynamic_weight_function, herr]

/-- C7 witness: a loaded curve raising `ExposureWeight::error` with
message "bad width" is reported with symbol, module and message, and the
process exits with status 1. -/
theorem C7_dynamic_init_error_fatal_witness :
    make_weight_function_dyn failing_env none "libuser.so" ["user_curve", "42"]
        (1/2 : ℚ) (1/4) =
      ([Event.destroy none,
        Event.constructDynamic "libuser.so" "user_curve",
        Event.initializeDynamic (1/2) (1/4) ["42"],
        Event.report ("user-defined weight function \"user_curve\" defined in " ++
          "shared object \"libuser.so\" raised exception: bad width"),
        Event.exitProcess 1],
       none) :=
  C7_dynamic_init_error_fatal failing_env none "libuser.so" "user_curve" ["42"]
    (1/2) (1/4) ⟨"bad width"⟩ (by decide) rfl

/-- C8: on the dynamic path with a non-empty argument list, the first
element is the symbol name resolved inside the module named by `name`
(the `constructDynamic` event), and exactly the remaining elements, in
their original order, are forwarded as the argument list of the loaded
curve's initialize call (the `initializeDynamic` event). -/
theorem C8_symbol_and_argument_forwarding {α : Type} (env : ModuleEnv α)
    (prev : Option (Curve α)) (name symbol_name : String)
    (user_arguments : List String) (y_optimum width : α)
    (hname : to_lower name ∉ builtin_aliases) :
    Event.constructDynamic name symbol_name ∈
      (make_weight_function_dyn env prev name (symbol_name :: user_arguments)
        y_optimum width).1 ∧
    Event.initializeDynamic y_optimum width user_arguments ∈
      (make_weight_function_dyn env prev name (symbol_name :: user_arguments)
        y_optimum width).1 := by
  rw [make_weight_function_dyn_unmatched env prev name (symbol_name :: user_arguments)
    y_optimum width hname]
  rcases hres : env.init_outcome name symbol_name y_optimum width user_arguments with
    u | e <;> simp [make_dynamic_weight_function, hres]

/-- C8 witness: with arguments ["user_curve", "a", "b"], the symbol is
"user_curve" and exactly ["a", "b"] is forwarded, in order. -/
theorem C8_symbol_and_argument_forwarding_witness :
    Event.constructDynamic "libuser.so" "user_curve" ∈
      (make_weight_function_dyn ok_env none "libuser.so" ["user_curve", "a", "b"]
        (1/2 : ℚ) (1/4)).1 ∧
    Event.initializeDynamic (1/2 : ℚ) (1/4) ["a", "b"] ∈
      (make_weight_function_dyn ok_env none "libuser.so" ["user_curve", "a", "b"]
        (1/2 : ℚ) (1/4)).1 :=
  C8_symbol_and_argument_forwarding ok_env none "libuser.so" "user_curve" ["a", "b"]
    (1/2) (1/4) (by decide)

/-- C10: replacement is not atomic on error: on each of the three fatal
paths (unknown name without dynamic-loading support; empty argument list
on the dynamic path; dynamic initialization failure) the previously
active curve has already been destroyed as the first action, the process
exit happens strictly afterwards (in the tail of the trace), and no curve
is returned, so the prior state is never restored. -/
theorem C10_no_rollback_on_fatal_paths {α : Type} (env : ModuleEnv α)
    (prev : Option (Curve α)) (name symbol_name : String)
    (arguments user_arguments : List String) (y_optimum width : α)
    (exception : CurveError)
    (hname : to_lower name ∉ builtin_aliases)
    (herr : env.init_outcome name symbol_name y_optimum width user_arguments =
      Except.error exception) :
    ((make_weight_function_nodyn prev name arguments y_optimum width).1.head? =
        some (Event.destroy prev) ∧
      Event.exitProcess 1 ∈
        (make_weight_function_nodyn prev name arguments y_optimum width).1.tail ∧
      (make_weight_function_nodyn prev name arguments y_optimum width).2 = none) ∧
    ((make_weight_function_dyn env prev name [] y_optimum width).1.head? =
        some (Event.destroy prev) ∧
      Event.exitProcess 1 ∈
        (make_weight_function_dyn env prev name [] y_optimum width).1.tail ∧
      (make_weight_function_dyn env prev name [] y_optimum width).2 = none) ∧
    ((make_weight_function_dyn env prev name (symbol_name :: user_arguments)
          y_optimum width).1.head? = some (Event.destroy prev) ∧
      Event.exitProcess 1 ∈
        (make_weight_function_dyn env prev name (symbol_name :: user_arguments)
          y_optimum width).1.tail ∧
      (make_weight_function_dyn env prev name (symbol_name :: user_arguments)
          y_optimum width).2 = none) := by
  rw [make_weight_function_nodyn_unmatched prev name arguments y_optimum width hname,
    make_weight_function_dyn_unmatched env prev name [] y_optimum width hname,
    make_weight_function_dyn_unmatched env prev name (symbol_name :: user_arguments)
      y_optimum width hname]
  simp [make_dynamic_weight_function, herr]

/-- C10 witness: the three fatal paths at the concrete name "nosuch" with
a previously active Gaussian curve: the destroy of that curve heads every
trace and the exit follows it. -/
theorem C10_no_rollback_on_fatal_paths_witness :
    ((make_weight_function_nodyn
          (some (Curve.builtin BuiltinKind.gaussian (1/2) (1/4)))
          "nosuch" [] (1/2 : ℚ) (1/4)).1.head? =
        some (Event.destroy (some (Curve.builtin BuiltinKind.gaussian (1/2) (1/4)))) ∧
      Event.exitProcess 1 ∈
        (make_weight_function_nodyn
          (some (Curve.builtin BuiltinKind.gaussian (1/2) (1/4)))
          "nosuch" [] (1/2 : ℚ) (1/4)).1.tail ∧
      (make_weight_function_nodyn
        (some (Curve.builtin BuiltinKind.gaussian (1/2) (1/4)))
        "nosuch" [] (1/2 : ℚ) (1/4)).2 = none) ∧
    ((make_weight_function_dyn failing_env
          (some (Curve.builtin BuiltinKind.gaussian (1/2) (1/4)))
          "nosuch" [] (1/2 : ℚ) (1/4)).1.head? =
        some (Event.destroy (some (Curve.builtin BuiltinKind.gaussian (1/2) (1/4)))) ∧
      Event.exitProcess 1 ∈
        (make_weight_function_dyn failing_env
          (some (Curve.builtin BuiltinKind.gaussian (1/2) (1/4)))
          "nosuch" [] (1/2 : ℚ) (1/4)).1.tail ∧
      (make_weight_function_dyn failing_env
        (some (Curve.builtin BuiltinKind.gaussian (1/2) (1/4)))
        "nosuch" [] (1/2 : ℚ) (1/4)).2 = none) ∧
    ((make_weight_function_dyn failing_env
          (some (Curve.builtin BuiltinKind.gaussian (1/2) (1/4)))
          "nosuch" ["user_curve"] (1/2 : ℚ) (1/4)).1.head? =
        some (Event.destroy (some (Curve.builtin BuiltinKind.gaussian (1/2) (1/4)))) ∧
      Event.exitProcess 1 ∈
        (make_weight_function_dyn failing_env
          (some (Curve.builtin BuiltinKind.gaussian (1/2) (1/4)))
          "nosuch" ["user_curve"] (1/2 : ℚ) (1/4)).1.tail ∧
      (make_weight_function_dyn failing_env
        (some (Curve.builtin BuiltinKind.gaussian (1/2) (1/4)))
        "nosuch" ["user_curve"] (1/2 : ℚ) (1/4)).2 = none) :=
  C10_no_rollback_on_fatal_paths failing_env
    (some (Curve.builtin BuiltinKind.gaussian (1/2) (1/4)))
    "nosuch" "user_curve" [] [] (1/2) (1/4) ⟨"bad width"⟩ (by decide) rfl

/-- C3: for every curve and every `n ≥ 2`, `check_weight_function`
samples the `n` grid points `i/(n-1)`, counts the samples with
`w < 0 || w >= 1`, and returns true iff that fault count is zero; and a
curve returning `3/2` at one of the sampled points makes it return
false. -/
theorem C3_check_weight_function_faults {α : Type} [LinearOrderedField α]
    (weight_function : α → α) (n : ℕ) (hn : 2 ≤ n) :
    (check_weight_function weight_function n = true ↔
      ∀ i, i < n → ¬(weight_function (sample_point α i n) < 0 ∨
        weight_function (sample_point α i n) ≥ 1)) ∧
    (∀ i, i < n → weight_function (sample_point α i n) = 3 / 2 →
      check_weight_function weight_function n = false) := by
  constructor
  · rw [check_weight_function, beq_iff_eq, number_of_faults, List.countP_eq_zero]
    constructor
    · intro h i hi
      have := h i (List.mem_range.mpr hi)
      simpa using this
    · intro h i hi
      have := h i (List.mem_range.mp hi)
      simpa using this
  · intro i hi hval
    rw [check_weight_function]
    simp only [beq_eq_false_iff_ne, ne_eq]
    intro hzero
    rw [number_of_faults, List.countP_eq_zero] at hzero
    have := hzero i (List.mem_range.mpr hi)
    rw [hval] at this
    simp at this
    linarith [this.2]

/-- C3 witness: the fault characterization instantiated at the constant
curve `1/2` over `ℚ` with `n = 2`. -/
theorem C3_check_weight_function_faults_witness :
    (check_weight_function (fun _ : ℚ => 1/2) 2 = true ↔
      ∀ i, i < 2 → ¬((1/2 : ℚ) < 0 ∨ (1/2 : ℚ) ≥ 1)) ∧
    (∀ i, i < 2 → (1/2 : ℚ) = 3 / 2 →
      check_weight_function (fun _ : ℚ => 1/2) 2 = false) :=
  C3_check_weight_function_faults (fun _ : ℚ => 1/2) 2 (by decide)

/-- C4: for every curve and every `n ≥ 2`, `dump_weight_function` prints
exactly `n` lines, line `i` (in increasing order of `i`) holding the
triple `(i, x, w(x))` with `x = i/(n-1)`; for `n = 5` the `x` values are
`0, 1/4, 1/2, 3/4, 1` in that order. -/
theorem C4_dump_weight_function_lines {α : Type} [LinearOrderedField α]
    (weight_function : α → α) (n : ℕ) (hn : 2 ≤ n) :
    (dump_weight_function weight_function n).length = n ∧
    (∀ i, i < n → (dump_weight_function weight_function n)[i]? =
      some (i, sample_point α i n, weight_function (sample_point α i n))) ∧
    ((dump_weight_function weight_function 5).map (fun entry => entry.2.1) =
      [0, 1/4, 1/2, 3/4, 1]) := by
  refine ⟨by simp [dump_weight_function], ?_, ?_⟩
  · intro i hi
    simp [dump_weight_function, List.getElem?_map, List.getElem?_range hi]
  · simp [dump_weight_function, sample_point, List.range_succ]
    norm_num

/-- C4 witness: the dump shape instantiated at the constant curve `1/2`
over `ℚ` with `n = 5`. -/
theorem C4_dump_weight_function_lines_witness :
    (dump_weight_function (fun _ : ℚ => 1/2) 5).length = 5 ∧
    (∀ i, i < 5 → (dump_weight_function (fun _ : ℚ => 1/2) 5)[i]? =
      some (i, sample_point ℚ i 5, (1/2 : ℚ))) ∧
    ((dump_weight_function (fun _ : ℚ => 1/2) 5).map (fun entry => entry.2.1) =
      [0, 1/4, 1/2, 3/4, 1]) :=
  C4_dump_weight_function_lines (fun _ : ℚ => 1/2) 5 (by decide)

/-- Modelled from the spec: the closed forms of the five built-in curves
(classes `Gaussian`, `Lorentzian`, `HalfSinusodial`, `FullSinusodial`,
`Bisquare` of `exposure_weight.h`) are not under `src/`; §4.2 describes
them as bell/ramp shapes of the normalized offset
`z = (y - y_optimum) / width`, maximal at `y_optimum`, decaying away from
it: a Gaussian bell `exp(-z²/2)`, a heavier-tailed Lorentzian
`1/(1 + z²/2)`, a raised half-period of a sine wave, a full-period
sine-based bump, and a quartic bump with compact support. -/
noncomputable def builtin_weight : BuiltinKind → ℝ → ℝ → ℝ → ℝ
  | BuiltinKind.gaussian, y_optimum, width, y =>
      Real.exp (-((y - y_optimum) / width) ^ 2 / 2)
  | BuiltinKind.lorentzian, y_optimum, width, y =>
      1 / (1 + ((y - y_optimum) / width) ^ 2 / 2)
  | BuiltinKind.halfSinusodial, y_optimum, width, y =>
      if |(y - y_optimum) / width| ≤ 1 then
        Real.cos ((y - y_optimum) / width * (Real.pi / 2))
      else 0
  | BuiltinKind.fullSinusodial, y_optimum, width, y =>
      if |(y - y_optimum) / width| ≤ 1 then
        (1 + Real.cos ((y - y_optimum) / width * Real.pi)) / 2
      else 0
  | BuiltinKind.bisquare, y_optimum, width, y =>
      if |(y - y_optimum) / width| ≤ 1 then
        (1 - ((y - y_optimum) / width) ^ 2) ^ 2
      else 0

/-- No grid point of the `n = 1000` sampling grid hits `1/2`: that would
need `2 * i = 999`, which is odd. -/
theorem sample_point_ne_half (i : ℕ) : sample_point ℝ i 1000 ≠ 1 / 2 := by
  rw [sample_point]
  intro h
  rw [div_eq_iff (by norm_num : ((1000 - 1 : ℕ) : ℝ) ≠ 0)] at h
  norm_num at h
  have h2 : (2 * i : ℕ) = (999 : ℕ) := by
    have : ((2 * i : ℕ) : ℝ) = ((999 : ℕ) : ℝ) := by push_cast; linarith
    exact_mod_cast this
  omega

/-- Each modelled built-in curve with `y_optimum = 1/2`, `width = 1/4`
lies in `[0, 1)` at every point other than the optimum itself. -/
theorem builtin_weight_range (kind : BuiltinKind) (y : ℝ) (hyne : y ≠ 1 / 2) :
    0 ≤ builtin_weight kind (1/2) (1/4) y ∧
      builtin_weight kind (1/2) (1/4) y < 1 := by
  have hzne : (y - 1/2) / (1/4) ≠ 0 := by
    rw [div_ne_zero_iff]
    constructor
    · intro h; exact hyne (by linarith)
    · norm_num
  have hzsq : 0 < ((y - 1/2) / (1/4)) ^ 2 :=
    lt_of_le_of_ne (sq_nonneg _) (Ne.symm (pow_ne_zero 2 hzne))
  have hpi := Real.pi_pos
  cases kind with
  | gaussian =>
      simp only [builtin_weight]
      refine ⟨(Real.exp_pos _).le, ?_⟩
      rw [Real.exp_lt_one_iff]
      linarith
  | lorentzian =>
      simp only [builtin_weight]
      constructor
      · positivity
      · rw [div_lt_one (by linarith)]
        linarith
  | halfSinusodial =>
      simp only [builtin_weight]
      split
      case isTrue habs =>
        obtain ⟨hl, hu⟩ := abs_le.mp habs
        set z := (y - 1/2) / (1/4) with hz
        have hxl : -(Real.pi / 2) ≤ z * (Real.pi / 2) := by nlinarith
        have hxu : z * (Real.pi / 2) ≤ Real.pi / 2 := by nlinarith
        refine ⟨Real.cos_nonneg_of_mem_Icc ⟨hxl, hxu⟩, ?_⟩
        rcases lt_or_eq_of_le (Real.cos_le_one (z * (Real.pi / 2))) with h | h
        · exact h
        · exfalso
          have hb1 : -(2 * Real.pi) < z * (Real.pi / 2) := by nlinarith
          have hb2 : z * (Real.pi / 2) < 2 * Real.pi := by nlinarith
          have := (Real.cos_eq_one_iff_of_lt_of_lt hb1 hb2).mp h
          have : z = 0 := by
            rcases mul_eq_zero.mp this with h0 | h0
            · exact h0
            · exfalso; nlinarith
          exact hzne this
      case isFalse =>
        norm_num
  | fullSinusodial =>
      simp only [builtin_weight]
      split
      case isTrue habs =>
        obtain ⟨hl, hu⟩ := abs_le.mp habs
        set z := (y - 1/2) / (1/4) with hz
        have hcl := Real.neg_one_le_cos (z * Real.pi)
        have hcu := Real.cos_le_one (z * Real.pi)
        constructor
        · linarith
        · rcases lt_or_eq_of_le hcu with h | h
          · linarith
          · exfalso
            have hb1 : -(2 * Real.pi) < z * Real.pi := by nlinarith
            have hb2 : z * Real.pi < 2 * Real.pi := by nlinarith
            have := (Real.cos_eq_one_iff_of_lt_of_lt hb1 hb2).mp h
            have : z = 0 := by
              rcases mul_eq_zero.mp this with h0 | h0
              · exact h0
              · exfalso; nlinarith
            exact hzne this
      case isFalse =>
        norm_num
  | bisquare =>
      simp only [builtin_weight]
      split
      case isTrue habs =>
        set z := (y - 1/2) / (1/4) with hz
        have hsq1 : z ^ 2 ≤ 1 := (sq_le_one_iff_abs_le_one z).mpr habs
        refine ⟨sq_nonneg _, ?_⟩
        exact pow_lt_one₀ (by linarith) (by linarith) (by norm_num)
      case isFalse =>
        norm_num

/-- Dynamic-module environment over `ℝ` whose loaded curve always
initializes successfully: used to instantiate theorems at concrete
inputs. -/
def ok_env_real : ModuleEnv ℝ :=
  ⟨fun _ _ _ _ _ => Except.ok ()⟩

/-- C9: for every built-in alias, `make_weight_function` returns the
corresponding built-in curve parameterized with `(1/2, 1/4)`, and that
curve (as modelled from the spec) evaluates to a value in `[0, 1)` at
every grid point `i/(n-1)` of the `n = 1000` sampling grid. -/
theorem C9_builtins_in_range_on_grid (env : ModuleEnv ℝ)
    (prev : Option (Curve ℝ)) (kind : BuiltinKind) (name : String)
    (arguments : List String) (i : ℕ)
    (hname : to_lower name ∈ aliases kind) (hi : i < 1000) :
    (make_weight_function_dyn env prev name arguments (1/2 : ℝ) (1/4)).2 =
      some (Curve.builtin kind (1/2) (1/4)) ∧
    0 ≤ builtin_weight kind (1/2) (1/4) (sample_point ℝ i 1000) ∧
    builtin_weight kind (1/2) (1/4) (sample_point ℝ i 1000) < 1 := by
  obtain ⟨hfac, -⟩ :=
    make_weight_function_matched env prev kind name arguments (1/2 : ℝ) (1/4) hname
  obtain ⟨h0, h1⟩ :=
    builtin_weight_range kind (sample_point ℝ i 1000) (sample_point_ne_half i)
  exact ⟨by rw [hfac], h0, h1⟩

/-- C9 witness: the Gaussian resolved from "gauss", sampled at grid
index 0. -/
theorem C9_builtins_in_range_on_grid_witness :
    (make_weight_function_dyn ok_env_real none "gauss" [] (1/2 : ℝ) (1/4)).2 =
      some (Curve.builtin BuiltinKind.gaussian (1/2) (1/4)) ∧
    0 ≤ builtin_weight BuiltinKind.gaussian (1/2) (1/4) (sample_point ℝ 0 1000) ∧
    builtin_weight BuiltinKind.gaussian (1/2) (1/4) (sample_point ℝ 0 1000) < 1 :=
  C9_builtins_in_range_on_grid ok_env_real none BuiltinKind.gaussian "gauss" [] 0
    (by decide) (by decide)
